import Mathlib

/-!
Verification development for the Call_Analyser repository.

The Python modules `models.py`, `prefilter.py`, `analyzer.py`, `pipeline.py`
and `storage.py` are shallowly embedded below: pure functions become Lean
functions, Python `float` values become `ℚ` (the confidence weights and
thresholds of this code base are exact decimal constants whose comparisons
are unaffected by binary rounding), Python dictionaries with a known key set
become structures with `Option`-typed fields (a `none` field models an
absent key), and code that can raise becomes `Option`/`Except`-valued.
-/

set_option maxRecDepth 4000

/-- Speaker of a dialogue turn, from `models.py` (`Speaker` enum with the
string values "user" and "bot"). -/
inductive Speaker where
  | user
  | bot
deriving DecidableEq, Repr

/-- One dialogue turn, from `models.py` (`DialogueTurn`). -/
structure DialogueTurn where
  speaker : Speaker
  text : String
  timestamp : Option String := none
deriving DecidableEq, Repr

/-- A call transcript, from `models.py` (`CallTranscript`).  The open
`metadata` map is modelled as an association list of string keys and string
values, which covers the `status` key inspected by the pipeline. -/
structure CallTranscript where
  call_id : String
  dialog : List DialogueTurn
  metadata : Option (List (String × String)) := none
deriving DecidableEq, Repr

/-- Verdict dictionary returned by `FailureDetector.is_call_possibly_failed`
(`prefilter.py`).  The short-circuit return for dialogs of fewer than 3 turns
omits the `call_length` key, hence the `Option` type for that field. -/
structure PrefilterVerdict where
  failed : Bool
  confidence : ℚ
  reasons : List String
  call_length : Option Nat
deriving DecidableEq, Repr

/-- Result dictionary of one heuristic detector in `prefilter.py`.  The
caller (`is_call_possibly_failed`) reads only the `detected` flag and the
`reasons` list; the per-detector count fields are not read and are not
modelled. -/
structure DetectorResult where
  detected : Bool
  reasons : List String
deriving DecidableEq, Repr

/-- Frustration keyword list from `FailureDetector.__init__`. -/
def frustration_keywords : List String :=
  ["not helpful", "hello?", "what?", "you there?", "makes no sense",
   "that\x27s not what i asked", "i don\x27t understand", "wrong answer",
   "that doesn\x27t help", "can you hear me", "are you listening",
   "this is ridiculous", "useless", "stupid", "idiot"]

/-- Bot-confusion pattern list from `FailureDetector.__init__`. -/
def bot_confusion_patterns : List String :=
  ["i don\x27t understand", "could you repeat", "i\x27m not sure",
   "let me try to help", "i apologize", "i\x27m sorry"]

/-- Short-response threshold from `FailureDetector.__init__`. -/
def short_response_threshold : Nat := 10

/-- Python's `str.lower()` restricted to ASCII case mapping, which covers
every keyword and every text this code base compares (executable helper;
`String.toLower` itself does not reduce in the kernel). -/
def pyLower (s : String) : String :=
  String.mk (s.data.map Char.toLower)

/-- ASCII whitespace test matching Python's `str.strip()` default set on the
ASCII range. -/
def pyIsSpace (c : Char) : Bool :=
  c == ' ' || c == '\t' || c == '\n' || c == '\r' || c == '\x0b' || c == '\x0c'

/-- Python's `str.strip()` with no argument (leading and trailing
whitespace removed). -/
def pyStrip (s : String) : String :=
  String.mk (((s.data.dropWhile pyIsSpace).reverse.dropWhile pyIsSpace).reverse)

/-- Character-list prefix test (executable helper for the substring test). -/
def listIsPrefix : List Char → List Char → Bool
  | [], _ => true
  | _ :: _, [] => false
  | a :: as, b :: bs => a == b && listIsPrefix as bs

/-- Character-list contiguous-substring test (executable helper). -/
def listIsSub (needle : List Char) : List Char → Bool
  | [] => needle.isEmpty
  | h :: t => listIsPrefix needle (h :: t) || listIsSub needle t

/-- Python's `needle in hay` substring test on strings. -/
def strContainsSub (hay needle : String) : Bool :=
  listIsSub needle.data hay.data

/-- Embedding of `FailureDetector._detect_user_frustration` (`prefilter.py`):
scan each user turn, lower-cased; the inner keyword loop breaks at the first
matching keyword, so each user turn contributes at most one hit, in keyword
list order. -/
def detect_user_frustration (dialog : List DialogueTurn) : DetectorResult :=
  let hits := dialog.filterMap (fun turn =>
    if turn.speaker == Speaker.user then
      frustration_keywords.find? (fun kw => strContainsSub (pyLower turn.text) kw)
    else none)
  { detected := decide (0 < hits.length),
    reasons := hits.map (fun kw => "User frustration detected: \x27" ++ kw ++ "\x27") }

/-- Embedding of `FailureDetector._detect_bot_repetition` (`prefilter.py`):
count trimmed bot utterances; detection fires when some utterance occurs at
least twice, and the single reason reports how many distinct utterances are
repeated. -/
def detect_bot_repetition (dialog : List DialogueTurn) : DetectorResult :=
  let botTexts := dialog.filterMap (fun t =>
    if t.speaker == Speaker.bot then some (pyStrip t.text) else none)
  let repeated := botTexts.eraseDups.filter (fun s => 2 ≤ botTexts.count s)
  { detected := decide (0 < repeated.length),
    reasons :=
      if 0 < repeated.length then
        ["Bot repeated responses: " ++ toString repeated.length ++
          " unique responses repeated"]
      else [] }

/-- Embedding of `FailureDetector._detect_flow_issues` (`prefilter.py`):
count bot turns whose trimmed text is shorter than the threshold; a reason is
emitted only when more than 2 such turns exist. -/
def detect_flow_issues (dialog : List DialogueTurn) : DetectorResult :=
  let shortResponses := (dialog.filter (fun t =>
    t.speaker == Speaker.bot && decide ((pyStrip t.text).length < short_response_threshold))).length
  { detected := decide (2 < shortResponses),
    reasons :=
      if 2 < shortResponses then
        ["Multiple very short bot responses: " ++ toString shortResponses]
      else [] }

/-- Embedding of `FailureDetector._detect_bot_confusion` (`prefilter.py`):
like the frustration detector but over bot turns and the confusion pattern
list. -/
def detect_bot_confusion (dialog : List DialogueTurn) : DetectorResult :=
  let hits := dialog.filterMap (fun turn =>
    if turn.speaker == Speaker.bot then
      bot_confusion_patterns.find? (fun p => strContainsSub (pyLower turn.text) p)
    else none)
  { detected := decide (0 < hits.length),
    reasons := hits.map (fun p => "Bot confusion detected: \x27" ++ p ++ "\x27") }

/-- Embedding of `FailureDetector._detect_abrupt_ending` (`prefilter.py`):
a reason for dialogs of fewer than 5 turns, and a reason when the last turn
is a user turn containing one of the question markers. -/
def detect_abrupt_ending (dialog : List DialogueTurn) : DetectorResult :=
  let earlyReasons :=
    if dialog.length < 5 then ["Conversation ended very early"] else []
  let lastReasons :=
    match dialog.getLast? with
    | some t =>
      if t.speaker == Speaker.user &&
          (["?", "help", "what", "how"].any (fun k => strContainsSub (pyLower t.text) k)) then
        ["Conversation ended with user question/request"]
      else []
    | none => []
  let reasons := earlyReasons ++ lastReasons
  { detected := decide (0 < reasons.length), reasons := reasons }

/-- Embedding of `FailureDetector.is_call_possibly_failed` (`prefilter.py`).
Dialogs of fewer than 3 turns short-circuit to a fixed verdict without a
`call_length` key.  Otherwise the five detectors each add their weight to a
raw score; `failed` compares the raw score with 0.3, while the reported
confidence is the raw score clamped to 1. -/
def is_call_possibly_failed (transcript : CallTranscript) : PrefilterVerdict :=
  if transcript.dialog.length < 3 then
    { failed := true, confidence := 0.8,
      reasons := ["Call too short - likely incomplete"], call_length := none }
  else
    let fr := detect_user_frustration transcript.dialog
    let rep := detect_bot_repetition transcript.dialog
    let flow := detect_flow_issues transcript.dialog
    let conf := detect_bot_confusion transcript.dialog
    let abr := detect_abrupt_ending transcript.dialog
    let score : ℚ :=
      (if fr.detected then 0.4 else 0) + (if rep.detected then 0.3 else 0) +
      (if flow.detected then 0.2 else 0) + (if conf.detected then 0.3 else 0) +
      (if abr.detected then 0.2 else 0)
    let reasons :=
      (if fr.detected then fr.reasons else []) ++
      (if rep.detected then rep.reasons else []) ++
      (if flow.detected then flow.reasons else []) ++
      (if conf.detected then conf.reasons else []) ++
      (if abr.detected then abr.reasons else [])
    { failed := decide ((0.3 : ℚ) ≤ score),
      confidence := min score 1,
      reasons := reasons,
      call_length := some transcript.dialog.length }

/-- Raw (pre-clamp) weighted sum of the triggered detectors, stated
independently of `is_call_possibly_failed` so the main function can be
related to it. -/
def raw_confidence_score (transcript : CallTranscript) : ℚ :=
  (if (detect_user_frustration transcript.dialog).detected then 0.4 else 0) +
  (if (detect_bot_repetition transcript.dialog).detected then 0.3 else 0) +
  (if (detect_flow_issues transcript.dialog).detected then 0.2 else 0) +
  (if (detect_bot_confusion transcript.dialog).detected then 0.3 else 0) +
  (if (detect_abrupt_ending transcript.dialog).detected then 0.2 else 0)

section PrefilterSanity

/-- Concrete transcript from the spec scenario: 3 turns with a frustration
keyword. -/
def scenarioTranscript : CallTranscript :=
  { call_id := "c1",
    dialog :=
      [ { speaker := Speaker.user, text := "Do you deliver to Bandra?" },
        { speaker := Speaker.bot, text := "We are open 11 to 10." },
        { speaker := Speaker.user, text := "That\x27s not what I asked!" } ] }

example : (detect_user_frustration scenarioTranscript.dialog).detected = true := by decide

example : (detect_bot_repetition scenarioTranscript.dialog).detected = false := by decide

end PrefilterSanity

/-- Two-turn transcript whose content would trigger several detectors if they
ran; used to exercise the short-circuit path. -/
def shortTranscript : CallTranscript :=
  { call_id := "s1",
    dialog :=
      [ { speaker := Speaker.user, text := "useless" },
        { speaker := Speaker.bot, text := "i\x27m sorry" } ] }

/-- Four-turn transcript triggering all five detectors: three identical short
apologetic bot turns (repetition, flow issues, confusion) and a final
frustrated user turn, with fewer than 5 turns (abrupt ending). -/
def allFiveTranscript : CallTranscript :=
  { call_id := "a1",
    dialog :=
      [ { speaker := Speaker.bot, text := "i\x27m sorry" },
        { speaker := Speaker.bot, text := "i\x27m sorry" },
        { speaker := Speaker.bot, text := "i\x27m sorry" },
        { speaker := Speaker.user, text := "useless" } ] }

/-- C4: for every transcript whose dialog has fewer than 3 turns,
`is_call_possibly_failed` short-circuits and returns the fixed verdict
`failed = true`, `confidence = 0.8`, single reason
"Call too short - likely incomplete", independent of the turns' content;
no detector output appears in the verdict. -/
theorem prefilter_short_circuit (t : CallTranscript) (h : t.dialog.length < 3) :
    is_call_possibly_failed t =
      { failed := true, confidence := 0.8,
        reasons := ["Call too short - likely incomplete"], call_length := none } := by
  unfold is_call_possibly_failed
  rw [if_pos h]

/-- Witness for C4 at a concrete two-turn transcript whose content would
trigger detectors if they ran. -/
theorem prefilter_short_circuit_witness :
    shortTranscript.dialog.length < 3 ∧
    is_call_possibly_failed shortTranscript =
      { failed := true, confidence := 0.8,
        reasons := ["Call too short - likely incomplete"], call_length := none } :=
  ⟨by decide, prefilter_short_circuit shortTranscript (by decide)⟩

/-- C1: for every transcript of at least 3 turns, the `failed` flag compares
the raw (pre-clamp) sum of the triggered detector weights with the 0.3
threshold, while the reported confidence is the raw sum clamped to 1. -/
theorem prefilter_threshold_and_clamp (t : CallTranscript)
    (h : 3 ≤ t.dialog.length) :
    (is_call_possibly_failed t).failed =
      decide ((0.3 : ℚ) ≤ raw_confidence_score t) ∧
    (is_call_possibly_failed t).confidence = min (raw_confidence_score t) 1 := by
  unfold is_call_possibly_failed raw_confidence_score
  rw [if_neg (by omega)]
  exact ⟨rfl, rfl⟩

/-- Witness for C1 at a transcript triggering all five detectors: the raw sum
is 1.4, which exceeds 1, the call is flagged failed, and the reported
confidence is exactly 1. -/
theorem prefilter_threshold_and_clamp_witness :
    3 ≤ allFiveTranscript.dialog.length ∧
    ((is_call_possibly_failed allFiveTranscript).failed =
        decide ((0.3 : ℚ) ≤ raw_confidence_score allFiveTranscript) ∧
      (is_call_possibly_failed allFiveTranscript).confidence =
        min (raw_confidence_score allFiveTranscript) 1) ∧
    raw_confidence_score allFiveTranscript = 1.4 ∧
    (1 : ℚ) < 1.4 ∧
    (is_call_possibly_failed allFiveTranscript).confidence = 1 ∧
    (is_call_possibly_failed allFiveTranscript).failed = true := by
  have h3 : 3 ≤ allFiveTranscript.dialog.length := by decide
  have hmain := prefilter_threshold_and_clamp allFiveTranscript h3
  have hfr : (detect_user_frustration allFiveTranscript.dialog).detected = true := by
    decide
  have hrep : (detect_bot_repetition allFiveTranscript.dialog).detected = true := by
    decide
  have hflow : (detect_flow_issues allFiveTranscript.dialog).detected = true := by
    decide
  have hcnf : (detect_bot_confusion allFiveTranscript.dialog).detected = true := by
    decide
  have habr : (detect_abrupt_ending allFiveTranscript.dialog).detected = true := by
    decide
  have hraw : raw_confidence_score allFiveTranscript = 1.4 := by
    unfold raw_confidence_score
    rw [hfr, hrep, hflow, hcnf, habr]
    norm_num
  refine ⟨h3, hmain, hraw, by norm_num, ?_, ?_⟩
  · rw [hmain.2, hraw, min_def]
    norm_num
  · rw [hmain.1, hraw]
    simp only [decide_eq_true_eq]
    norm_num

/-- C10 counterexample: on the short-circuit path the verdict carries no
`call_length` key at all, so it is not equal to the dialog length. -/
theorem prefilter_call_length_cex :
    (is_call_possibly_failed shortTranscript).call_length ≠
      some shortTranscript.dialog.length := by
  decide

/-- C10 (amended): the verdict's `call_length` equals the number of dialog
turns exactly on the non-short-circuit path (at least 3 turns); the
short-circuit verdict for shorter dialogs has no `call_length` key. -/
theorem prefilter_call_length (t : CallTranscript) :
    (is_call_possibly_failed t).call_length =
      if 3 ≤ t.dialog.length then some t.dialog.length else none := by
  by_cases h : t.dialog.length < 3
  · unfold is_call_possibly_failed
    rw [if_pos h, if_neg (by omega)]
  · unfold is_call_possibly_failed
    rw [if_neg h, if_pos (by omega)]

/-- Structured LLM analysis, from `models.py` (`AnalysisResult`).  The
pydantic field constraint `confidence_score ∈ [0,1]` is enforced at
construction time by `analyze_transcript` below. -/
structure AnalysisResult where
  intent : String
  bot_response_summary : String
  issue_detected : Bool
  issue_reason : String
  suggested_fix : String
  confidence_score : ℚ
deriving DecidableEq, Repr

/-- Per-call analysis response, from `models.py` (`CallAnalysisResponse`). -/
structure CallAnalysisResponse where
  call_id : String
  status : String
  reason : Option String := none
  analysis : Option AnalysisResult := none
  error : Option String := none
deriving DecidableEq, Repr

/-- Statistics dictionary of `CallAnalyzer.get_analysis_stats`
(`analyzer.py`). -/
structure AnalyzerStats where
  total_calls : Nat
  analyzed : Nat
  skipped : Nat
  errors : Nat
  issues_detected : Nat
  issue_rate : ℚ
  average_confidence : ℚ
  success_rate : ℚ
deriving DecidableEq, Repr

/-- Statistics dictionary of `CallPipeline._calculate_pipeline_stats`
(`pipeline.py`), which adds `processing_efficiency`. -/
structure PipelineStats where
  total_calls : Nat
  analyzed : Nat
  skipped : Nat
  errors : Nat
  issues_detected : Nat
  issue_rate : ℚ
  average_confidence : ℚ
  success_rate : ℚ
  processing_efficiency : ℚ
deriving DecidableEq, Repr

/-- Embedding of `CallAnalyzer.get_analysis_stats` (`analyzer.py`): counts by
status; issues and confidence scores collected over every response that
carries an analysis; each ratio guarded by its denominator. -/
def get_analysis_stats (results : List CallAnalysisResponse) : AnalyzerStats :=
  let total := results.length
  let analyzed := (results.filter (fun r => r.status == "analyzed")).length
  let skipped := (results.filter (fun r => r.status == "skipped")).length
  let errors := (results.filter (fun r => r.status == "error")).length
  let issues_detected :=
    (results.filter (fun r => r.analysis.elim false (fun a => a.issue_detected))).length
  let confidence_scores := results.filterMap (fun r => r.analysis.map (fun a => a.confidence_score))
  let avg_confidence : ℚ :=
    if confidence_scores.isEmpty then 0 else confidence_scores.sum / (confidence_scores.length : ℚ)
  { total_calls := total, analyzed := analyzed, skipped := skipped, errors := errors,
    issues_detected := issues_detected,
    issue_rate := if 0 < analyzed then (issues_detected : ℚ) / (analyzed : ℚ) else 0,
    average_confidence := avg_confidence,
    success_rate := if 0 < total then (analyzed : ℚ) / (total : ℚ) else 0 }

/-- Embedding of `CallPipeline._calculate_pipeline_stats` (`pipeline.py`):
the same computation as `get_analysis_stats` plus `processing_efficiency`. -/
def calculate_pipeline_stats (results : List CallAnalysisResponse) : PipelineStats :=
  let total := results.length
  let analyzed := (results.filter (fun r => r.status == "analyzed")).length
  let skipped := (results.filter (fun r => r.status == "skipped")).length
  let errors := (results.filter (fun r => r.status == "error")).length
  let issues_detected :=
    (results.filter (fun r => r.analysis.elim false (fun a => a.issue_detected))).length
  let confidence_scores := results.filterMap (fun r => r.analysis.map (fun a => a.confidence_score))
  let avg_confidence : ℚ :=
    if confidence_scores.isEmpty then 0 else confidence_scores.sum / (confidence_scores.length : ℚ)
  { total_calls := total, analyzed := analyzed, skipped := skipped, errors := errors,
    issues_detected := issues_detected,
    issue_rate := if 0 < analyzed then (issues_detected : ℚ) / (analyzed : ℚ) else 0,
    average_confidence := avg_confidence,
    success_rate := if 0 < total then (analyzed : ℚ) / (total : ℚ) else 0,
    processing_efficiency :=
      if 0 < total then ((analyzed : ℚ) + (skipped : ℚ)) / (total : ℚ) else 0 }

/-- Number of responses with the given status string. -/
def countStatus (s : String) (rs : List CallAnalysisResponse) : Nat :=
  (rs.filter (fun r => r.status == s)).length

/-- Number of responses carrying an analysis whose `issue_detected` flag is
set. -/
def countIssues (rs : List CallAnalysisResponse) : Nat :=
  (rs.filter (fun r => r.analysis.elim false (fun a => a.issue_detected))).length

/-- Confidence scores of every response that carries an analysis. -/
def confScores (rs : List CallAnalysisResponse) : List ℚ :=
  rs.filterMap (fun r => r.analysis.map (fun a => a.confidence_score))

/-- Helper response constructors for concrete statistics batches. -/
def analyzedResp (cid : String) (issue : Bool) : CallAnalysisResponse :=
  { call_id := cid, status := "analyzed",
    analysis := some
      { intent := "Unknown", bot_response_summary := "No summary",
        issue_detected := issue, issue_reason := "No issues detected",
        suggested_fix := "No suggestions", confidence_score := 0.5 } }

/-- Skipped response used in concrete statistics batches. -/
def skippedResp (cid : String) : CallAnalysisResponse :=
  { call_id := cid, status := "skipped", reason := some "No issues detected" }

/-- Error response used in concrete statistics batches. -/
def errorResp (cid : String) : CallAnalysisResponse :=
  { call_id := cid, status := "error", error := some "boom" }

/-- Batch of 10 responses: 4 analyzed (2 with an issue), 4 skipped, 2
error. -/
def ex10Batch : List CallAnalysisResponse :=
  [analyzedResp "b1" true, analyzedResp "b2" true,
   analyzedResp "b3" false, analyzedResp "b4" false,
   skippedResp "b5", skippedResp "b6", skippedResp "b7", skippedResp "b8",
   errorResp "b9", errorResp "b10"]

/-- C5: both statistics computations report the counts by status, the count
of responses carrying an analysis with `issue_detected`, and the guarded
ratios `issue_rate`, `average_confidence`, `success_rate` (and, for the
pipeline variant, `processing_efficiency`); every ratio is 0 when its
denominator is 0, and for the 10-element batch with 4 analyzed (2 issues),
4 skipped and 2 errors the rates are 0.5, 0.4 and 0.8. -/
theorem analysis_statistics :
    (∀ rs : List CallAnalysisResponse,
      calculate_pipeline_stats rs =
        { total_calls := rs.length,
          analyzed := countStatus "analyzed" rs,
          skipped := countStatus "skipped" rs,
          errors := countStatus "error" rs,
          issues_detected := countIssues rs,
          issue_rate :=
            if 0 < countStatus "analyzed" rs then
              (countIssues rs : ℚ) / (countStatus "analyzed" rs : ℚ)
            else 0,
          average_confidence :=
            if (confScores rs).isEmpty then 0
            else (confScores rs).sum / ((confScores rs).length : ℚ),
          success_rate :=
            if 0 < rs.length then (countStatus "analyzed" rs : ℚ) / (rs.length : ℚ)
            else 0,
          processing_efficiency :=
            if 0 < rs.length then
              ((countStatus "analyzed" rs : ℚ) + (countStatus "skipped" rs : ℚ)) /
                (rs.length : ℚ)
            else 0 } ∧
      get_analysis_stats rs =
        { total_calls := rs.length,
          analyzed := countStatus "analyzed" rs,
          skipped := countStatus "skipped" rs,
          errors := countStatus "error" rs,
          issues_detected := countIssues rs,
          issue_rate :=
            if 0 < countStatus "analyzed" rs then
              (countIssues rs : ℚ) / (countStatus "analyzed" rs : ℚ)
            else 0,
          average_confidence :=
            if (confScores rs).isEmpty then 0
            else (confScores rs).sum / ((confScores rs).length : ℚ),
          success_rate :=
            if 0 < rs.length then (countStatus "analyzed" rs : ℚ) / (rs.length : ℚ)
            else 0 }) ∧
    (calculate_pipeline_stats []).issue_rate = 0 ∧
    (calculate_pipeline_stats []).average_confidence = 0 ∧
    (calculate_pipeline_stats []).success_rate = 0 ∧
    (calculate_pipeline_stats []).processing_efficiency = 0 ∧
    (calculate_pipeline_stats ex10Batch).issue_rate = 0.5 ∧
    (calculate_pipeline_stats ex10Batch).success_rate = 0.4 ∧
    (calculate_pipeline_stats ex10Batch).processing_efficiency = 0.8 := by
  have hgen : ∀ rs : List CallAnalysisResponse,
      calculate_pipeline_stats rs =
        { total_calls := rs.length,
          analyzed := countStatus "analyzed" rs,
          skipped := countStatus "skipped" rs,
          errors := countStatus "error" rs,
          issues_detected := countIssues rs,
          issue_rate :=
            if 0 < countStatus "analyzed" rs then
              (countIssues rs : ℚ) / (countStatus "analyzed" rs : ℚ)
            else 0,
          average_confidence :=
            if (confScores rs).isEmpty then 0
            else (confScores rs).sum / ((confScores rs).length : ℚ),
          success_rate :=
            if 0 < rs.length then (countStatus "analyzed" rs : ℚ) / (rs.length : ℚ)
            else 0,
          processing_efficiency :=
            if 0 < rs.length then
              ((countStatus "analyzed" rs : ℚ) + (countStatus "skipped" rs : ℚ)) /
                (rs.length : ℚ)
            else 0 } := fun rs => rfl
  have hA : countStatus "analyzed" ex10Batch = 4 := by decide
  have hS : countStatus "skipped" ex10Batch = 4 := by decide
  have hI : countIssues ex10Batch = 2 := by decide
  have hL : ex10Batch.length = 10 := by decide
  refine ⟨fun rs => ⟨hgen rs, rfl⟩, ?_, ?_, ?_, ?_, ?_, ?_, ?_⟩
  · rw [hgen []]; norm_num [countStatus]
  · rw [hgen []]; norm_num [confScores]
  · rw [hgen []]; norm_num
  · rw [hgen []]; norm_num
  · rw [hgen ex10Batch]
    norm_num [hA, hI]
  · rw [hgen ex10Batch]
    norm_num [hA, hL]
  · rw [hgen ex10Batch]
    norm_num [hA, hS, hL]

/-- Acknowledgement dictionary returned by `CallPipeline.ingest_transcript`
(`pipeline.py`). -/
structure IngestAck where
  status : String
  call_id : String
  message : String
deriving DecidableEq, Repr

/-- Observable outcome of one ingestion: the returned acknowledgement, the
file key under which the raw transcript is persisted (`_store_transcript`
writes `transcript_<call_id>.json`), the stored transcript (with metadata
attached when supplied), and whether `asyncio.create_task` scheduled a
background analysis. -/
structure IngestOutcome where
  ack : IngestAck
  stored_key : String
  stored_transcript : CallTranscript
  analysis_scheduled : Bool
deriving DecidableEq, Repr

/-- Embedding of `CallPipeline.ingest_transcript` (`pipeline.py`).  Python
truthiness of the metadata dict is preserved: a `None` or empty metadata map
neither gets attached nor triggers analysis; otherwise analysis is scheduled
exactly when the metadata's `status` value is the string "failed". -/
def ingest_transcript (t : CallTranscript)
    (metadata : Option (List (String × String))) : IngestOutcome :=
  let stored : CallTranscript :=
    match metadata with
    | some m => if m.isEmpty then t else { t with metadata := some m }
    | none => t
  let should_analyze : Bool :=
    match metadata with
    | some m => if m.isEmpty then false else decide (m.lookup "status" = some "failed")
    | none => false
  if should_analyze then
    { ack := { status := "received_and_analyzing", call_id := t.call_id,
               message := "Transcript received and analysis started" },
      stored_key := "transcript_" ++ t.call_id ++ ".json",
      stored_transcript := stored,
      analysis_scheduled := true }
  else
    { ack := { status := "received", call_id := t.call_id,
               message := "Transcript stored for batch processing" },
      stored_key := "transcript_" ++ t.call_id ++ ".json",
      stored_transcript := stored,
      analysis_scheduled := false }

/-- C9: ingestion persists the raw transcript keyed by call id and returns
status "received_and_analyzing" with a scheduled background analysis exactly
when metadata is present with `status = "failed"`; in every other case the
status is "received" and no analysis is scheduled. -/
theorem ingest_transcript_spec (t : CallTranscript)
    (md : Option (List (String × String))) :
    (ingest_transcript t md).analysis_scheduled =
      md.elim false (fun m => decide (m.lookup "status" = some "failed")) ∧
    (ingest_transcript t md).ack.status =
      (if md.elim false (fun m => decide (m.lookup "status" = some "failed")) then
        "received_and_analyzing" else "received") ∧
    (ingest_transcript t md).stored_key = "transcript_" ++ t.call_id ++ ".json" := by
  cases md with
  | none => exact ⟨rfl, rfl, rfl⟩
  | some m =>
    cases m with
    | nil => exact ⟨rfl, rfl, rfl⟩
    | cons p ms =>
      by_cases hb : (p :: ms).lookup "status" = some "failed"
      · simp [ingest_transcript, hb]
      · simp [ingest_transcript, hb]

/-- Parsed JSON-object reply of the model, as consumed by
`CallAnalyzer.analyze_transcript` (`analyzer.py`): each expected key is
optional, and a present "error" key marks the dict as an error result (this
is how `_call_llm` reports failure and how `analyze_transcript` tests for
it).  Field values are modelled at the types the caller expects. -/
structure ReplyDict where
  error : Option String := none
  intent : Option String := none
  bot_response_summary : Option String := none
  issue_detected : Option Bool := none
  issue_reason : Option String := none
  suggested_fix : Option String := none
  confidence_score : Option ℚ := none
deriving DecidableEq, Repr

/-- Python's `s[:n]` character slice. -/
def pySlice (s : String) (n : Nat) : String :=
  String.mk (s.data.take n)

/-- Recursion of `CallAnalyzer._call_llm` (`analyzer.py`): `fuel` counts the
loop iterations left out of `max_retries`, `attempt` is the current index.
The transport (`client.chat.completions.create` returning the message
content, or raising) is abstracted as `oracle`, and `json.loads` restricted
to object replies as `jparse`.  The second component counts how many
transport calls were made. -/
def call_llm_go (oracle : Nat → Except String String)
    (jparse : String → Option ReplyDict) (max_retries : Nat) :
    Nat → Nat → Except String ReplyDict × Nat
  | 0, _ => (Except.error "Unexpected error in LLM call", 0)
  | fuel + 1, attempt =>
    match oracle attempt with
    | Except.error e =>
      if attempt = max_retries - 1 then
        (Except.error ("LLM call failed after " ++ toString max_retries ++
          " attempts: " ++ e), 1)
      else
        let r := call_llm_go oracle jparse max_retries fuel (attempt + 1)
        (r.1, r.2 + 1)
    | Except.ok raw =>
      let reply := pyStrip raw
      match jparse reply with
      | some v => (Except.ok v, 1)
      | none =>
        if attempt = max_retries - 1 then
          (Except.error ("Failed to parse JSON response: " ++ pySlice reply 200 ++
            "..."), 1)
        else
          let r := call_llm_go oracle jparse max_retries fuel (attempt + 1)
          (r.1, r.2 + 1)

/-- Embedding of `CallAnalyzer._call_llm` (`analyzer.py`): run the retry loop
from attempt 0 with `max_retries` iterations available; also report the
number of transport calls made. -/
def call_llm (max_retries : Nat) (oracle : Nat → Except String String)
    (jparse : String → Option ReplyDict) : Except String ReplyDict × Nat :=
  call_llm_go oracle jparse max_retries max_retries 0

/-- Attempt `i` fails: either the transport raises, or the reply does not
parse as JSON. -/
def attempt_fails (oracle : Nat → Except String String)
    (jparse : String → Option ReplyDict) (i : Nat) : Bool :=
  match oracle i with
  | Except.error _ => true
  | Except.ok raw => (jparse (pyStrip raw)).isNone

/-- Error message produced when every attempt fails, determined by the kind
of the last attempt's failure. -/
def exhausted_error (oracle : Nat → Except String String) (mr : Nat) : String :=
  match oracle (mr - 1) with
  | Except.error e => "LLM call failed after " ++ toString mr ++ " attempts: " ++ e
  | Except.ok raw => "Failed to parse JSON response: " ++ pySlice (pyStrip raw) 200 ++ "..."

/-- Helper induction for the retry loop: with every remaining attempt
failing, the loop consumes all its fuel and ends with the last attempt's
error message. -/
theorem call_llm_go_exhausts (oracle : Nat → Except String String)
    (jparse : String → Option ReplyDict) (mr : Nat)
    (hfail : ∀ i, i < mr → attempt_fails oracle jparse i = true) :
    ∀ fuel attempt, fuel + attempt = mr → 1 ≤ fuel →
      call_llm_go oracle jparse mr fuel attempt =
        (Except.error (exhausted_error oracle mr), fuel) := by
  intro fuel
  induction fuel with
  | zero => intro attempt _ h2; omega
  | succ f ih =>
    intro attempt hsum _
    have hlt : attempt < mr := by omega
    have hfa := hfail attempt hlt
    cases hor : oracle attempt with
    | error e =>
      by_cases hlast : attempt = mr - 1
      · have hf0 : f = 0 := by omega
        subst hf0
        simp only [call_llm_go, hor, if_pos hlast]
        have : oracle (mr - 1) = Except.error e := by rw [← hlast]; exact hor
        simp [exhausted_error, this]
      · have hf1 : 1 ≤ f := by omega
        simp only [call_llm_go, hor, if_neg hlast]
        rw [ih (attempt + 1) (by omega) hf1]
    | ok raw =>
      have hj : jparse (pyStrip raw) = none := by
        rw [attempt_fails, hor] at hfa
        exact Option.isNone_iff_eq_none.mp hfa
      by_cases hlast : attempt = mr - 1
      · have hf0 : f = 0 := by omega
        subst hf0
        simp only [call_llm_go, hor, hj, if_pos hlast]
        have : oracle (mr - 1) = Except.ok raw := by rw [← hlast]; exact hor
        simp [exhausted_error, this]
      · have hf1 : 1 ≤ f := by omega
        simp only [call_llm_go, hor, hj, if_neg hlast]
        rw [ih (attempt + 1) (by omega) hf1]

/-- C3: when every attempt fails, `_call_llm` makes exactly `max_retries`
transport attempts (a retry is triggered equally by a transport failure and
by a JSON-parse failure), and returns a single error: on a last parse
failure the message embeds an at-most-200-character excerpt of the last
(stripped) reply; on a last transport failure it embeds the underlying error
message and the attempt count. -/
theorem call_llm_exhausts_retries (mr : Nat) (oracle : Nat → Except String String)
    (jparse : String → Option ReplyDict) (hmr : 1 ≤ mr)
    (hfail : ∀ i, i < mr → attempt_fails oracle jparse i = true) :
    (call_llm mr oracle jparse).2 = mr ∧
    (call_llm mr oracle jparse).1 = Except.error (exhausted_error oracle mr) ∧
    (∀ raw n, (pySlice raw n).length ≤ n) := by
  have h := call_llm_go_exhausts oracle jparse mr hfail mr 0 (by omega) hmr
  refine ⟨?_, ?_, ?_⟩
  · rw [call_llm, h]
  · rw [call_llm, h]
  · intro raw n
    show (raw.data.take n).length ≤ n
    rw [List.length_take]
    exact min_le_left _ _

/-- Oracle for the C3 witness: the transport always succeeds with a reply
that is not JSON. -/
def exOracle : Nat → Except String String := fun _ => Except.ok "this is not json"

/-- Parser for the C3 witness: no reply parses. -/
def exJparse : String → Option ReplyDict := fun _ => none

/-- Witness for C3 with the default `max_retries = 3`: three attempts are
made and the final error carries the excerpt of the last reply. -/
theorem call_llm_exhausts_retries_witness :
    (call_llm 3 exOracle exJparse).2 = 3 ∧
    (call_llm 3 exOracle exJparse).1 =
      Except.error "Failed to parse JSON response: this is not json..." := by
  have h := call_llm_exhausts_retries 3 exOracle exJparse (by omega)
    (fun i _ => by simp [attempt_fails, exOracle, exJparse])
  refine ⟨h.1, ?_⟩
  rw [h.2.1]
  exact congrArg Except.error (by decide)

/-- Rendering of Python's `"{:.2f}".format` for the nonnegative exact-decimal
confidence values this code base produces (100 times the value is always an
integer, so no rounding tie can occur). -/
def format2f (q : ℚ) : String :=
  let n := (round (q * 100)).toNat
  let fp := n % 100
  toString (n / 100) ++ "." ++ (if fp < 10 then "0" ++ toString fp else toString fp)

/-- Modelled from the library: pydantic raises a `ValidationError` when
`AnalysisResult` is constructed with `confidence_score` outside `[0, 1]`
(`models.py`, `Field(ge=0.0, le=1.0)`), and `analyze_transcript` stores
`str(e)` of that exception.  The exact exception text is not reproduced and
no theorem below relies on it. -/
def pydantic_validation_error_message : String :=
  "1 validation error for AnalysisResult: confidence_score"

/-- Embedding of `CallAnalyzer.analyze_transcript` (`analyzer.py`) for a
transcript and the dict returned by `_call_llm` (a parsed JSON object, or a
dict carrying an "error" key).  Storage writes are side effects that do not
alter the returned response and are modelled separately.  The pydantic
range check on `confidence_score` is the one modelled validation: the other
fields are taken at the types the model already expects. -/
def analyze_transcript (t : CallTranscript) (llm_result : ReplyDict) :
    CallAnalysisResponse :=
  if (is_call_possibly_failed t).failed = false then
    { call_id := t.call_id, status := "skipped",
      reason := some ("No issues detected (confidence: " ++
        format2f (is_call_possibly_failed t).confidence ++ ")") }
  else
    match llm_result.error with
    | some e => { call_id := t.call_id, status := "error", error := some e }
    | none =>
      if 0 ≤ llm_result.confidence_score.getD 0.5 ∧
          llm_result.confidence_score.getD 0.5 ≤ 1 then
        { call_id := t.call_id, status := "analyzed",
          analysis := some
            { intent := llm_result.intent.getD "Unknown",
              bot_response_summary := llm_result.bot_response_summary.getD "No summary",
              issue_detected := llm_result.issue_detected.getD false,
              issue_reason := llm_result.issue_reason.getD "No issues detected",
              suggested_fix := llm_result.suggested_fix.getD "No suggestions",
              confidence_score := llm_result.confidence_score.getD 0.5 } }
      else
        { call_id := t.call_id, status := "error",
          error := some pydantic_validation_error_message }

/-- Reply whose confidence score violates the pydantic range constraint. -/
def outOfRangeReply : ReplyDict := { confidence_score := some 2 }

/-- Reply carrying an "error" key, as `_call_llm` produces on failure. -/
def errorKeyReply : ReplyDict :=
  { error := some "LLM call failed after 3 attempts: boom" }

/-- C7 counterexample: a transcript that passes the prefilter together with a
JSON-object reply whose `confidence_score` is 2 yields an error-status
response, not an analyzed one (pydantic rejects the out-of-range score); a
reply carrying an "error" key likewise yields an error response. -/
theorem analyze_transcript_defaults_cex :
    (is_call_possibly_failed shortTranscript).failed = true ∧
    (analyze_transcript shortTranscript outOfRangeReply).status = "error" ∧
    (analyze_transcript shortTranscript outOfRangeReply).status ≠ "analyzed" ∧
    (analyze_transcript shortTranscript errorKeyReply).status = "error" := by
  have hfail : (is_call_possibly_failed shortTranscript).failed = true := by decide
  have h2 : (analyze_transcript shortTranscript outOfRangeReply).status = "error" := by
    norm_num [analyze_transcript, hfail, outOfRangeReply]
  refine ⟨hfail, h2, ?_, ?_⟩
  · rw [h2]
    decide
  · norm_num [analyze_transcript, hfail, errorKeyReply]

/-- Reply with every field absent: all defaults apply. -/
def emptyReply : ReplyDict := {}

/-- C7 (amended): for every transcript that passes the prefilter and every
JSON-object reply that carries no "error" key and whose `confidence_score`
(0.5 when absent) lies in `[0, 1]`, `analyze_transcript` returns an analyzed
response whose analysis maps each reply field with its documented default:
intent "Unknown", summary "No summary", `issue_detected` false, reason
"No issues detected", fix "No suggestions", confidence 0.5. -/
theorem analyze_transcript_defaults (t : CallTranscript) (r : ReplyDict)
    (hfail : (is_call_possibly_failed t).failed = true)
    (herr : r.error = none)
    (hconf : 0 ≤ r.confidence_score.getD 0.5 ∧ r.confidence_score.getD 0.5 ≤ 1) :
    analyze_transcript t r =
      { call_id := t.call_id, status := "analyzed",
        analysis := some
          { intent := r.intent.getD "Unknown",
            bot_response_summary := r.bot_response_summary.getD "No summary",
            issue_detected := r.issue_detected.getD false,
            issue_reason := r.issue_reason.getD "No issues detected",
            suggested_fix := r.suggested_fix.getD "No suggestions",
            confidence_score := r.confidence_score.getD 0.5 } } := by
  unfold analyze_transcript
  rw [hfail, herr]
  rw [if_neg (by simp)]
  exact if_pos hconf

/-- Witness for the amended C7 at a prefilter-failing transcript and the
all-absent reply: every default is applied. -/
theorem analyze_transcript_defaults_witness :
    ((is_call_possibly_failed shortTranscript).failed = true ∧
      emptyReply.error = none ∧
      0 ≤ emptyReply.confidence_score.getD 0.5 ∧
      emptyReply.confidence_score.getD 0.5 ≤ 1) ∧
    analyze_transcript shortTranscript emptyReply =
      { call_id := "s1", status := "analyzed",
        analysis := some
          { intent := "Unknown", bot_response_summary := "No summary",
            issue_detected := false, issue_reason := "No issues detected",
            suggested_fix := "No suggestions", confidence_score := 0.5 } } := by
  have h1 : (is_call_possibly_failed shortTranscript).failed = true := by decide
  have h2 : emptyReply.error = none := rfl
  have h3 : 0 ≤ emptyReply.confidence_score.getD 0.5 ∧
      emptyReply.confidence_score.getD 0.5 ≤ 1 := by
    constructor <;> norm_num [emptyReply]
  refine ⟨⟨h1, h2, h3.1, h3.2⟩, ?_⟩
  rw [analyze_transcript_defaults shortTranscript emptyReply h1 h2 h3]
  rfl

/-- One stored analysis record (`storage.py`): the three keys the query and
filter functions inspect, each optional as in the underlying JSON dict, plus
the remaining payload keys. -/
structure Record where
  call_id : Option String := none
  status : Option String := none
  timestamp : Option String := none
  payload : List (String × String) := []
deriving DecidableEq, Repr

/-- Modelled library value: a parsed `datetime.datetime`.  `offset` is the
UTC offset in minutes when the value is timezone-aware, `none` when naive. -/
structure PyDateTime where
  year : Nat
  month : Nat
  day : Nat
  hour : Nat
  minute : Nat
  second : Nat
  microsecond : Nat
  offset : Option Int
deriving DecidableEq, Repr

/-- Gregorian leap-year test. -/
def isLeapYear (y : Nat) : Bool :=
  y % 4 == 0 && (y % 100 != 0 || y % 400 == 0)

/-- Days in a month of the proleptic Gregorian calendar (0 for an invalid
month index). -/
def daysInMonth (y m : Nat) : Nat :=
  match m with
  | 1 => 31 | 2 => if isLeapYear y then 29 else 28 | 3 => 31 | 4 => 30
  | 5 => 31 | 6 => 30 | 7 => 31 | 8 => 31 | 9 => 30 | 10 => 31
  | 11 => 30 | 12 => 31 | _ => 0

/-- Day count of a civil date (standard civil-from-days algorithm); gives a
chronologically ordered day number for valid dates. -/
def daysFromCivil (y m d : Int) : Int :=
  let y2 := if m ≤ 2 then y - 1 else y
  let era := y2 / 400
  let yoe := y2 - era * 400
  let mp := (m + 9) % 12
  let doy := (153 * mp + 2) / 5 + d - 1
  let doe := yoe * 365 + yoe / 4 - yoe / 100 + doy
  era * 146097 + doe

/-- Microsecond-resolution UTC-adjusted key of a datetime; Python compares
aware datetimes by this adjusted instant and naive ones field-wise, which for
valid fields agrees with this key with offset 0. -/
def utcKey (dt : PyDateTime) : Int :=
  ((daysFromCivil (dt.year : Int) (dt.month : Int) (dt.day : Int)) * 86400 +
    (dt.hour : Int) * 3600 + (dt.minute : Int) * 60 + (dt.second : Int)) * 1000000 +
    (dt.microsecond : Int) - dt.offset.getD 0 * 60000000

/-- Value of an ASCII digit character, if it is one. -/
def digitVal (c : Char) : Option Nat :=
  if c.isDigit then some (c.toNat - 48) else none

/-- Parse exactly `n` ASCII digits into an accumulator, returning the value
and the remaining characters. -/
def parseDigits : Nat → Nat → List Char → Option (Nat × List Char)
  | 0, acc, rest => some (acc, rest)
  | n + 1, acc, c :: rest =>
    match digitVal c with
    | some d => parseDigits n (acc * 10 + d) rest
    | none => none
  | _ + 1, _, [] => none

/-- Parse a fractional-second component of exactly 6 or exactly 3 digits (the
forms `datetime.fromisoformat` accepts before Python 3.11), as
microseconds. -/
def parseFraction (l : List Char) : Option (Nat × List Char) :=
  match parseDigits 6 0 l with
  | some (v, rest) => some (v, rest)
  | none =>
    match parseDigits 3 0 l with
    | some (v, rest) => some (v * 1000, rest)
    | none => none

/-- Parse an optional `±HH:MM` UTC-offset suffix; `none` input characters
mean a naive datetime.  Returns the offset in minutes. -/
def parseOffset (l : List Char) : Option (Option Int) :=
  match l with
  | [] => some none
  | sign :: rest =>
    if sign == '+' || sign == '-' then
      match parseDigits 2 0 rest with
      | some (oh, r1) =>
        match r1 with
        | ':' :: r2 =>
          match parseDigits 2 0 r2 with
          | some (om, []) =>
            if oh ≤ 23 && om ≤ 59 then
              some (some ((if sign == '-' then -1 else 1) * ((oh : Int) * 60 + (om : Int))))
            else none
          | _ => none
        | _ => none
      | none => none
    else none

/-- Modelled library function: `datetime.fromisoformat` (pre-3.11 semantics,
as the `replace('Z', '+00:00')` in `storage.py` presumes) on the grammar
subset this code base produces and filters:
`YYYY-MM-DD[<sep>HH:MM:SS[.fff[fff]]][±HH:MM]`, with field range
validation.  Strings outside this subset are treated as parse failures. -/
def pyFromIso (s : String) : Option PyDateTime :=
  match parseDigits 4 0 s.data with
  | none => none
  | some (y, r1) =>
    match r1 with
    | '-' :: r2 =>
      match parseDigits 2 0 r2 with
      | none => none
      | some (mo, r3) =>
        match r3 with
        | '-' :: r4 =>
          match parseDigits 2 0 r4 with
          | none => none
          | some (d, r5) =>
            if 1 ≤ y && 1 ≤ mo && mo ≤ 12 && 1 ≤ d && d ≤ daysInMonth y mo then
              match r5 with
              | [] => some ⟨y, mo, d, 0, 0, 0, 0, none⟩
              | _ :: r6 =>
                match parseDigits 2 0 r6 with
                | none => none
                | some (h, r7) =>
                  match r7 with
                  | ':' :: r8 =>
                    match parseDigits 2 0 r8 with
                    | none => none
                    | some (mi, r9) =>
                      match r9 with
                      | ':' :: r10 =>
                        match parseDigits 2 0 r10 with
                        | none => none
                        | some (sec, r11) =>
                          if h ≤ 23 && mi ≤ 59 && sec ≤ 59 then
                            match r11 with
                            | '.' :: r12 =>
                              match parseFraction r12 with
                              | none => none
                              | some (us, r13) =>
                                match parseOffset r13 with
                                | none => none
                                | some off => some ⟨y, mo, d, h, mi, sec, us, off⟩
                            | _ =>
                              match parseOffset r11 with
                              | none => none
                              | some off => some ⟨y, mo, d, h, mi, sec, 0, off⟩
                          else none
                      | _ => none
                  | _ => none
            else none
        | _ => none
    | _ => none

/-- Replace every occurrence of a character by a replacement string
(Python's `str.replace` with a one-character pattern). -/
def replaceCharAll (c : Char) (rep : List Char) : List Char → List Char
  | [] => []
  | h :: t => (if h == c then rep else [h]) ++ replaceCharAll c rep t

/-- Timestamp parsing as `storage.py` performs it everywhere: first try
`fromisoformat` on the string with every `Z` replaced by `+00:00` (the inner
`try`), then fall back to `fromisoformat` on the original string.  A `none`
result corresponds to an exception escaping to the enclosing handler. -/
def tryParseTs (s : String) : Option PyDateTime :=
  match pyFromIso (String.mk (replaceCharAll 'Z' ("+00:00".data) s.data)) with
  | some dt => some dt
  | none => pyFromIso s

/-- Python comparison of two datetimes: raises (modelled `none`) when one is
aware and the other naive, otherwise compares the keys. -/
def cmpLtDT (a b : PyDateTime) : Option Bool :=
  if a.offset.isSome = b.offset.isSome then some (decide (utcKey a < utcKey b))
  else none

section DateParseSanity

example : (tryParseTs "2024-01-01T00:00:00Z").isSome = true := by decide

example : tryParseTs "not-a-date" = none := by decide

example : (tryParseTs "2024-02-30T00:00:00Z") = none := by decide

example :
    ((tryParseTs "2024-01-01T00:00:00Z").bind fun a =>
      (tryParseTs "2024-01-01T00:00:01Z").map fun b => cmpLtDT a b) =
        some (some true) := by decide

end DateParseSanity

/-- Python truthiness of an optional string: `None` and the empty string are
falsy. -/
def truthyOpt (o : Option String) : Bool :=
  match o with
  | none => false
  | some s => s != ""

/-- Start-date guard of the filter loop in `_filter_by_date_range`
(`storage.py` lines 177-184), guarded by `if start_date:` (Python
truthiness): `some true` means "skip this record", `none` means an exception
(unparsable `start_date`, or an aware/naive comparison). -/
def startSkipCheck (sd : Option String) (idt : PyDateTime) : Option Bool :=
  if truthyOpt sd then
    match sd with
    | none => some false
    | some s =>
      match tryParseTs s with
      | none => none
      | some sdt => cmpLtDT idt sdt
  else some false

/-- End-date guard of the filter loop (`storage.py` lines 186-193), guarded
by `if end_date:`. -/
def endSkipCheck (ed : Option String) (idt : PyDateTime) : Option Bool :=
  if truthyOpt ed then
    match ed with
    | none => some false
    | some e =>
      match tryParseTs e with
      | none => none
      | some edt => cmpLtDT edt idt
  else some false

/-- The record loop of `_filter_by_date_range` (`storage.py`): records
without a timestamp are skipped; an unparsable timestamp or bound, or an
aware/naive comparison, raises (modelled `none`); otherwise a record is kept
when it is neither before `start_date` nor after `end_date`. -/
def date_range_loop (sd ed : Option String) : List Record → Option (List Record)
  | [] => some []
  | item :: rest =>
    match item.timestamp with
    | none => date_range_loop sd ed rest
    | some ts =>
      match tryParseTs ts with
      | none => none
      | some idt =>
        match startSkipCheck sd idt with
        | none => none
        | some true => date_range_loop sd ed rest
        | some false =>
          match endSkipCheck ed idt with
          | none => none
          | some true => date_range_loop sd ed rest
          | some false =>
            match date_range_loop sd ed rest with
            | none => none
            | some l => some (item :: l)

/-- Embedding of `_filter_by_date_range` (`storage.py`): the enclosing
`try/except` returns the input list unchanged when the loop raises. -/
def filter_by_date_range (data : List Record) (sd ed : Option String) :
    List Record :=
  (date_range_loop sd ed data).getD data

/-- Sort key used by `get_analysis_history`: the record's timestamp string,
empty when absent (`x.get("timestamp", "")`). -/
def tsKey (r : Record) : String := r.timestamp.getD ""

/-- Code-point lexicographic strict order on character lists (Python's `<`
on strings). -/
def charListLt : List Char → List Char → Bool
  | [], [] => false
  | [], _ :: _ => true
  | _ :: _, [] => false
  | a :: as, b :: bs => if a == b then charListLt as bs else decide (a < b)

/-- Python's `<` on strings. -/
def strLt (a b : String) : Bool := charListLt a.data b.data

/-- Stable descending insertion: a record moves past exactly the records
with strictly greater key, so equal keys keep their original order, as
Python's stable `list.sort(key=..., reverse=True)` guarantees. -/
def insertDesc (x : Record) : List Record → List Record
  | [] => [x]
  | y :: ys => if strLt (tsKey x) (tsKey y) then y :: insertDesc x ys else x :: y :: ys

/-- Stable sort by timestamp string, newest (largest key) first; models
`filtered_data.sort(key=lambda x: x.get("timestamp", ""), reverse=True)`. -/
def sortByTsDesc : List Record → List Record
  | [] => []
  | x :: xs => insertDesc x (sortByTsDesc xs)

/-- Embedding of `get_analysis_history` (`storage.py`): the stored file
contents are the `data` argument; the filters apply in source order with
Python truthiness (an empty-string `call_id`/`status` filter and a
non-positive `limit` are skipped), the limit truncates before the final
descending sort. -/
def get_analysis_history (data : List Record)
    (start_date end_date call_id status : Option String) (limit : Option Int) :
    List Record :=
  let f1 :=
    if truthyOpt start_date || truthyOpt end_date then
      filter_by_date_range data start_date end_date
    else data
  let f2 :=
    match call_id with
    | some cid => if cid == "" then f1 else f1.filter (fun r => r.call_id == some cid)
    | none => f1
  let f3 :=
    match status with
    | some st => if st == "" then f2 else f2.filter (fun r => r.status == some st)
    | none => f2
  let f4 :=
    match limit with
    | some l => if 0 < l then f3.take l.toNat else f3
    | none => f3
  sortByTsDesc f4

/-- Record as persisted by `save_analysis`: the timestamp is assigned at
append time when absent; `now` stands for
`datetime.now(timezone.utc).isoformat()`. -/
def savedRecord (r : Record) (now : String) : Record :=
  match r.timestamp with
  | none => { r with timestamp := some now }
  | some _ => r

/-- Embedding of `save_analysis` (`storage.py`): read the whole collection,
append the (timestamped) record, rewrite the file; the list is the file
contents. -/
def save_analysis (store : List Record) (r : Record) (now : String) : List Record :=
  store ++ [savedRecord r now]

/-- Date-filter stage as the query applies it (only when a bound is
present). -/
def applyDateFilter (sd ed : Option String) (data : List Record) : List Record :=
  if truthyOpt sd || truthyOpt ed then filter_by_date_range data sd ed else data

/-- Call-id filter stage (exact match; skipped for an empty string by Python
truthiness). -/
def applyCallIdFilter (cid : Option String) (data : List Record) : List Record :=
  match cid with
  | some c => if c == "" then data else data.filter (fun r => r.call_id == some c)
  | none => data

/-- Status filter stage (exact match; skipped for an empty string). -/
def applyStatusFilter (st : Option String) (data : List Record) : List Record :=
  match st with
  | some s => if s == "" then data else data.filter (fun r => r.status == some s)
  | none => data

/-- Truncation stage: the first `limit` records in their current order, when
the limit is a positive number. -/
def applyLimit (lim : Option Int) (data : List Record) : List Record :=
  match lim with
  | some l => if 0 < l then data.take l.toNat else data
  | none => data

/-- Analyzed record with a call id and timestamp, for concrete stores. -/
def mkRec (cid ts : String) : Record :=
  { call_id := some cid, status := some "analyzed", timestamp := some ts }

/-- Five records whose on-disk order is not chronological. -/
def unsortedStore : List Record :=
  [ mkRec "r1" "2024-01-03T00:00:00Z",
    mkRec "r2" "2024-01-01T00:00:00Z",
    mkRec "r3" "2024-01-02T00:00:00Z",
    mkRec "r4" "2024-01-05T00:00:00Z",
    mkRec "r5" "2024-01-04T00:00:00Z" ]

/-- C2: the query is exactly the date-range, call-id and status filters in
that order, then truncation to the first `limit` survivors in on-disk order,
and only then the descending sort by timestamp; consequently, on a store of
5 records whose disk order is not chronological, `limit = 3` does not return
the newest 3 records. -/
theorem get_analysis_history_pipeline :
    (∀ (data : List Record) (sd ed cid st : Option String) (lim : Option Int),
      get_analysis_history data sd ed cid st lim =
        sortByTsDesc
          (applyLimit lim
            (applyStatusFilter st (applyCallIdFilter cid (applyDateFilter sd ed data))))) ∧
    get_analysis_history unsortedStore none none none none (some 3) ≠
      (sortByTsDesc unsortedStore).take 3 := by
  constructor
  · intro data sd ed cid st lim
    rfl
  · decide

/-- Record with an empty-string call id and no timestamp. -/
def emptyIdRecord : Record := { call_id := some "" }

/-- Pre-existing record with a different call id. -/
def otherIdRecord : Record :=
  { call_id := some "x", timestamp := some "2024-01-01T00:00:00Z" }

/-- C8 counterexample: for a record whose call id is the empty string,
querying by that call id skips the filter entirely (Python truthiness), so a
store that already held one unrelated record yields two results, not exactly
one. -/
theorem save_then_query_roundtrip_cex :
    (∀ x ∈ [otherIdRecord], x.call_id ≠ emptyIdRecord.call_id) ∧
    (get_analysis_history
        (save_analysis [otherIdRecord] emptyIdRecord "2024-01-02T00:00:00Z")
        none none emptyIdRecord.call_id none none).length = 2 := by
  constructor
  · decide
  · decide

/-- C8 (amended): for every record with a non-empty call id and every store
holding no record with that call id, appending the record and then querying
by its call id returns exactly the appended record, which is the input plus
a timestamp assigned at append time when the input lacked one. -/
theorem save_then_query_roundtrip (store : List Record) (r : Record)
    (cid : String) (now : String) (hcid : r.call_id = some cid) (hne : cid ≠ "")
    (hstore : ∀ x ∈ store, x.call_id ≠ some cid) :
    get_analysis_history (save_analysis store r now) none none (some cid) none none =
      [savedRecord r now] := by
  have hbe : (cid == "") = false := beq_eq_false_iff_ne.mpr hne
  have hsc : (savedRecord r now).call_id = some cid := by
    unfold savedRecord
    cases r.timestamp <;> simpa using hcid
  have hfs : store.filter (fun x => x.call_id == some cid) = [] := by
    rw [List.filter_eq_nil_iff]
    intro a ha
    simp [hstore a ha]
  show sortByTsDesc
      (match (none : Option String) with
        | some st =>
          if st == "" then
            (match (some cid : Option String) with
              | some c =>
                if c == "" then save_analysis store r now
                else (save_analysis store r now).filter (fun rr => rr.call_id == some c)
              | none => save_analysis store r now)
          else
            (match (some cid : Option String) with
              | some c =>
                if c == "" then save_analysis store r now
                else (save_analysis store r now).filter (fun rr => rr.call_id == some c)
              | none => save_analysis store r now).filter (fun rr => rr.status == some st)
        | none =>
          match (some cid : Option String) with
          | some c =>
            if c == "" then save_analysis store r now
            else (save_analysis store r now).filter (fun rr => rr.call_id == some c)
          | none => save_analysis store r now) = [savedRecord r now]
  simp only [save_analysis, hbe, if_false, List.filter_append, hfs, List.filter_cons,
    List.filter_nil, hsc, beq_self_eq_true, if_true, List.nil_append]
  rfl

/-- Fresh record (non-empty call id, no timestamp) for the round-trip
witness. -/
def newRecord : Record := { call_id := some "c42", payload := [("k", "v")] }

/-- Witness for the amended C8: appending a fresh record to a one-record
store and querying its call id returns exactly the timestamped copy. -/
theorem save_then_query_roundtrip_witness :
    (newRecord.call_id = some "c42" ∧ "c42" ≠ "" ∧
      ∀ x ∈ [otherIdRecord], x.call_id ≠ some "c42") ∧
    get_analysis_history (save_analysis [otherIdRecord] newRecord "2024-01-02T00:00:00Z")
        none none (some "c42") none none =
      [savedRecord newRecord "2024-01-02T00:00:00Z"] :=
  ⟨⟨rfl, by decide, by decide⟩,
    save_then_query_roundtrip [otherIdRecord] newRecord "c42" "2024-01-02T00:00:00Z"
      rfl (by decide) (by decide)⟩

/-- Strict-less decision agrees with the negated converse non-strict
decision. -/
theorem decide_lt_eq_not_decide_le (x y : Int) : decide (x < y) = !decide (y ≤ x) := by
  by_cases h : y ≤ x
  · simp [h, not_lt.mpr h]
  · simp [h, not_le.mp h]

/-- Awareness observation of a parsed timestamp string. -/
def tsAware (s : String) : Option Bool :=
  (tryParseTs s).map (fun d => d.offset.isSome)

/-- The date-filter hypotheses: every present bound and every present record
timestamp parses, and all of them share one awareness flag `b` (so no
comparison can raise). -/
def dateHypOk (sd ed : Option String) (data : List Record) (b : Bool) : Bool :=
  (match sd with | none => true | some s => tsAware s == some b) &&
  (match ed with | none => true | some e => tsAware e == some b) &&
  data.all (fun r =>
    match r.timestamp with
    | none => true
    | some ts => tsAware ts == some b)

/-- Inclusive-range keep predicate of the date filter: a record survives
exactly when it has a parsable timestamp lying in `[start_date, end_date]`
(each bound checked only when present). -/
def dateKeep (sd ed : Option String) (r : Record) : Bool :=
  match r.timestamp with
  | none => false
  | some ts =>
    match tryParseTs ts with
    | none => false
    | some dt =>
      (if truthyOpt sd then
        match sd with
        | none => true
        | some s =>
          match tryParseTs s with
          | none => false
          | some sdt => decide (utcKey sdt ≤ utcKey dt)
       else true) &&
      (if truthyOpt ed then
        match ed with
        | none => true
        | some e =>
          match tryParseTs e with
          | none => false
          | some edt => decide (utcKey dt ≤ utcKey edt)
       else true)

/-- Start-guard component of `dateKeep`. -/
def startOkB (sd : Option String) (dt : PyDateTime) : Bool :=
  if truthyOpt sd then
    match sd with
    | none => true
    | some s =>
      match tryParseTs s with
      | none => false
      | some sdt => decide (utcKey sdt ≤ utcKey dt)
  else true

/-- End-guard component of `dateKeep`. -/
def endOkB (ed : Option String) (dt : PyDateTime) : Bool :=
  if truthyOpt ed then
    match ed with
    | none => true
    | some e =>
      match tryParseTs e with
      | none => false
      | some edt => decide (utcKey dt ≤ utcKey edt)
  else true

/-- A successful awareness observation exposes a successful parse with that
flag. -/
theorem tsAware_some_elim (s : String) (b : Bool)
    (h : (tsAware s == some b) = true) :
    ∃ d, tryParseTs s = some d ∧ d.offset.isSome = b := by
  cases hp : tryParseTs s with
  | none =>
    rw [tsAware, hp] at h
    simp at h
  | some d =>
    refine ⟨d, rfl, ?_⟩
    rw [tsAware, hp] at h
    simpa using h

/-- Under the shared-awareness hypothesis the start guard never raises and
decides exactly the negation of the keep condition's start component. -/
theorem startSkipCheck_eq (sd : Option String) (b : Bool) (idt : PyDateTime)
    (hb : idt.offset.isSome = b)
    (hsd : (match sd with | none => true | some s => tsAware s == some b) = true) :
    startSkipCheck sd idt = some (!startOkB sd idt) := by
  cases sd with
  | none => rfl
  | some s =>
    obtain ⟨sdt, hp, hf⟩ := tsAware_some_elim s b hsd
    have hth : truthyOpt (some s) = true := by
      simp only [truthyOpt]
      by_cases hq : s = ""
      · subst hq
        rw [show tryParseTs "" = none from rfl] at hp
        exact absurd hp (by simp)
      · simp [hq]
    simp only [startSkipCheck, startOkB, hp, cmpLtDT, hb, hf, hth, if_true]
    rw [decide_lt_eq_not_decide_le]

/-- Same for the end guard. -/
theorem endSkipCheck_eq (ed : Option String) (b : Bool) (idt : PyDateTime)
    (hb : idt.offset.isSome = b)
    (hed : (match ed with | none => true | some e => tsAware e == some b) = true) :
    endSkipCheck ed idt = some (!endOkB ed idt) := by
  cases ed with
  | none => rfl
  | some e =>
    obtain ⟨edt, hp, hf⟩ := tsAware_some_elim e b hed
    have hth : truthyOpt (some e) = true := by
      simp only [truthyOpt]
      by_cases hq : e = ""
      · subst hq
        rw [show tryParseTs "" = none from rfl] at hp
        exact absurd hp (by simp)
      · simp [hq]
    simp only [endSkipCheck, endOkB, hp, cmpLtDT, hb, hf, hth, if_true]
    rw [decide_lt_eq_not_decide_le]

/-- Loop-level statement for the date filter: under the shared-awareness
hypothesis no exception occurs and the loop keeps exactly the records
satisfying the inclusive-range predicate. -/
theorem date_range_loop_eq (sd ed : Option String) (b : Bool) :
    ∀ data : List Record, dateHypOk sd ed data b = true →
      date_range_loop sd ed data = some (data.filter (dateKeep sd ed)) := by
  intro data
  induction data with
  | nil => intro _; rfl
  | cons item rest ih =>
    intro h
    rw [dateHypOk.eq_def, List.all_cons] at h
    simp only [Bool.and_eq_true] at h
    obtain ⟨⟨hA, hB⟩, hItem, hRest⟩ := h
    have hRestHyp : dateHypOk sd ed rest b = true := by
      rw [dateHypOk.eq_def]
      simp only [Bool.and_eq_true]
      exact ⟨⟨hA, hB⟩, hRest⟩
    cases hts : item.timestamp with
    | none =>
      have hk : dateKeep sd ed item = false := by rw [dateKeep, hts]
      simp only [date_range_loop, hts, List.filter_cons, hk, if_false,
        Bool.false_eq_true]
      exact ih hRestHyp
    | some ts =>
      rw [hts] at hItem
      obtain ⟨idt, hparse, hflag⟩ := tsAware_some_elim ts b hItem
      have hkeep : dateKeep sd ed item = (startOkB sd idt && endOkB ed idt) := by
        simp only [dateKeep, hts, hparse]
        rfl
      cases hso : startOkB sd idt with
      | false =>
        have hk : dateKeep sd ed item = false := by rw [hkeep, hso, Bool.false_and]
        simp only [date_range_loop, hts, hparse,
          startSkipCheck_eq sd b idt hflag hA, hso, Bool.not_false,
          List.filter_cons, hk, if_false, Bool.false_eq_true]
        exact ih hRestHyp
      | true =>
        cases heo : endOkB ed idt with
        | false =>
          have hk : dateKeep sd ed item = false := by
            rw [hkeep, hso, heo, Bool.and_false]
          simp only [date_range_loop, hts, hparse,
            startSkipCheck_eq sd b idt hflag hA, hso, Bool.not_true,
            endSkipCheck_eq ed b idt hflag hB, heo, Bool.not_false,
            List.filter_cons, hk, if_false, Bool.false_eq_true]
          exact ih hRestHyp
        | true =>
          have hk : dateKeep sd ed item = true := by
            rw [hkeep, hso, heo, Bool.and_self]
          simp only [date_range_loop, hts, hparse,
            startSkipCheck_eq sd b idt hflag hA, hso, Bool.not_true,
            endSkipCheck_eq ed b idt hflag hB, heo,
            List.filter_cons, hk, if_true]
          rw [ih hRestHyp]

/-- Record dated before the query range. -/
def beforeStartRecord : Record :=
  { call_id := some "old", timestamp := some "2020-01-01T00:00:00Z" }

/-- Record with a malformed timestamp. -/
def malformedRecord : Record :=
  { call_id := some "bad", timestamp := some "not-a-date" }

/-- C6 counterexample: one malformed timestamp makes the parse exception
escape to the outer handler, which returns the entire input list unfiltered:
the malformed record is not excluded, and even the record before the start
bound passes through. -/
theorem date_filter_malformed_cex :
    filter_by_date_range [beforeStartRecord, malformedRecord]
        (some "2024-01-01T00:00:00Z") none =
      [beforeStartRecord, malformedRecord] := by decide

/-- C6 (amended): when every present bound and record timestamp parses (a
trailing `Z` is tolerated as UTC offset) with one shared awareness, the date
filter keeps exactly the records inside `[start_date, end_date]` inclusive
and silently drops records with a missing timestamp; but a malformed
timestamp anywhere makes the filter return the whole input unfiltered
instead of skipping that record. -/
theorem filter_by_date_range_inclusive (sd ed : Option String)
    (data : List Record) (b : Bool) (h : dateHypOk sd ed data b = true) :
    filter_by_date_range data sd ed = data.filter (dateKeep sd ed) := by
  unfold filter_by_date_range
  rw [date_range_loop_eq sd ed b data h, Option.getD_some]

/-- In-range record for the C6 witness. -/
def inRangeRecord : Record :=
  { call_id := some "a", timestamp := some "2024-06-01T12:30:00Z" }

/-- Record exactly on the start bound (must be kept: inclusive). -/
def startBoundaryRecord : Record :=
  { call_id := some "b", timestamp := some "2024-01-01T00:00:00Z" }

/-- Record just before the start bound (dropped). -/
def beforeRecord : Record :=
  { call_id := some "c", timestamp := some "2023-12-31T23:59:59Z" }

/-- Record without a timestamp (silently dropped). -/
def noTsRecord : Record := { call_id := some "d" }

/-- Record exactly on the end bound (kept: inclusive). -/
def endBoundaryRecord : Record :=
  { call_id := some "e", timestamp := some "2024-12-31T23:59:59Z" }

/-- Store of five records exercising both boundaries, a missing timestamp
and an out-of-range one. -/
def dateStore : List Record :=
  [inRangeRecord, startBoundaryRecord, beforeRecord, noTsRecord, endBoundaryRecord]

/-- Witness for the amended C6: `Z`-suffixed bounds and records, both
boundaries kept, the earlier record and the timestamp-less record
dropped. -/
theorem filter_by_date_range_inclusive_witness :
    dateHypOk (some "2024-01-01T00:00:00Z") (some "2024-12-31T23:59:59Z")
        dateStore true = true ∧
    filter_by_date_range dateStore
        (some "2024-01-01T00:00:00Z") (some "2024-12-31T23:59:59Z") =
      [inRangeRecord, startBoundaryRecord, endBoundaryRecord] := by
  have h : dateHypOk (some "2024-01-01T00:00:00Z") (some "2024-12-31T23:59:59Z")
      dateStore true = true := by decide
  refine ⟨h, ?_⟩
  rw [filter_by_date_range_inclusive _ _ _ true h]
  decide

/-- C4 counterexample: the short-circuit reason string produced by the code
is "Call too short - likely incomplete", not the literal "call too
short". -/
theorem prefilter_short_reason_cex :
    (is_call_possibly_failed shortTranscript).reasons ≠ ["call too short"] := by
  decide
